import Mathlib

/-!
Shallow embedding of `src/tls_cert_tracker.py` (TLS Certificate Expiry Tracker).

Timestamps are modelled at one-second resolution:
* an aware UTC datetime is an `Int`, its POSIX epoch second;
* a naive Python datetime (no tzinfo) is an `Int`, the epoch second of the
  wall-clock reading it displays.
The cloud API and the third-party certificate parser
(`cryptography.x509.load_pem_x509_certificate`) are not part of the
repository; they enter the embedding as explicit function parameters
(`env`, `parse`), so every theorem quantifies over all of their possible
behaviours.
-/

/-- The five status strings the report loop (lines 110-128) can attach to a
certificate line: `"🟢 OK"`, `"❌ Error"`, `"🔴 Expiring Soon"`,
`"🟡 Warning"`, `"⚠️ Parse Error"`. -/
inductive Status
  | ok
  | errorTier
  | expiringSoon
  | warning
  | parseErrTier
deriving DecidableEq

/-- The status tiers named by the specification, ordered by descending
urgency: `ParseError`, `ExpiringSoon`, `Warning`, `Ok`. -/
inductive StatusTier
  | ParseError
  | ExpiringSoon
  | Warning
  | Ok
deriving DecidableEq

/-- Refinement map from the report strings of the code to the tiers of the
specification: both error strings (`"❌ Error"` from the decode-failure
sentinel and `"⚠️ Parse Error"` from the report-loop exception handler)
surface to the operator as the single `ParseError` tier. -/
def tierOf : Status → StatusTier
  | Status.ok => StatusTier.Ok
  | Status.errorTier => StatusTier.ParseError
  | Status.expiringSoon => StatusTier.ExpiringSoon
  | Status.warning => StatusTier.Warning
  | Status.parseErrTier => StatusTier.ParseError

/-- The error sentinel built at line 86:
`expiry_date = f"❌ Error parsing cert: {str(e)}"`. -/
def errorText (e : String) : String := "❌ Error parsing cert: " ++ e

/-- The Python value stored in the `expiry_date` field of a record
(line 93: `expiry_date.isoformat() if isinstance(expiry_date, datetime)
else expiry_date`):
* `none` — Python `None` (managed certificate, or self-managed with a
  falsy body);
* `isoStr t` — the `isoformat()` string of the aware UTC datetime whose
  epoch second is `t`;
* `errStr s` — the error sentinel string `s` (always of the form
  `errorText e`). -/
inductive ExpiryField
  | none
  | isoStr (t : Int)
  | errStr (s : String)
deriving DecidableEq

/-- Line 113: `isinstance(item["expiry_date"], str) and "Error" in
item["expiry_date"]`. An `isoformat()` string consists only of digits and
the characters `-:T+.`, so it never contains the substring `"Error"`; the
error sentinel starts with the literal `"❌ Error parsing cert: "`, so it
always does; `None` is not a `str`. -/
def containsErrorStr : ExpiryField → Bool
  | ExpiryField.none => false
  | ExpiryField.isoStr _ => false
  | ExpiryField.errStr _ => true

/-- Line 119: `datetime.fromisoformat(item["expiry_date"].replace("Z",
"+00:00"))`, with a raised exception modelled as `Option.none`:
* on an `isoformat()` string of an aware UTC datetime the `replace` is a
  no-op (the suffix is `+00:00`, never `Z`) and `fromisoformat` restores
  the same instant;
* on Python `None`, `None.replace` raises `AttributeError`;
* on the error sentinel (starts with `"❌"`), `fromisoformat` raises
  `ValueError`. -/
def fromIso : ExpiryField → Option Int
  | ExpiryField.isoStr t => some t
  | ExpiryField.none => Option.none
  | ExpiryField.errStr _ => Option.none

/-- Line 120: `(dt - datetime.now(pytz.utc)).days`. A Python `timedelta`
normalises so that `.days` is the floor of the total duration in days;
at one-second resolution that is floor division of the total seconds
by `86400`. -/
def timedeltaDays (delta : Int) : Int := Int.fdiv delta 86400

/-- Lines 110-128, the per-record body of the report loop, as a function of
the fields it reads (`item["is_managed"]`, `item["expiry_date"]`) and the
current instant `now`:
`status` starts as `"🟢 OK"`; a string `expiry_date` containing `"Error"`
gives `"❌ Error"`; otherwise, for a self-managed record, the `try` block
parses the field and applies the `days_left` thresholds, and any exception
in it is caught by the bare `except` which sets `"⚠️ Parse Error"`. -/
def classify (is_managed : Bool) (expiry : ExpiryField) (now : Int) : Status :=
  if containsErrorStr expiry then Status.errorTier
  else if is_managed then Status.ok
  else
    match fromIso expiry with
    | Option.none => Status.parseErrTier
    | Option.some dt =>
      let days_left := timedeltaDays (dt - now)
      if days_left ≤ 10 then Status.expiringSoon
      else if days_left ≤ 30 then Status.warning
      else Status.ok

/-- Python `naive.astimezone(pytz.utc)` (line 83): a naive datetime is
presumed to represent local time, so the instant it is mapped to is its
wall-clock second minus the ambient local UTC offset `localOffset`
(in seconds). -/
def naiveAstimezoneUtc (localOffset : Int) (naive : Int) : Int :=
  naive - localOffset

/-- Lines 80-86, the decode step for a self-managed certificate body.
`parse` abstracts `x509.load_pem_x509_certificate(cert_data.encode(),
default_backend())` followed by `.not_valid_after`: `Except.ok n` means the
parse succeeded and the `not_valid_after` field is the naive datetime (in
UTC wall-clock, per the cryptography library) with second value `n`;
`Except.error e` means the call raised an exception rendering as `str(e) =
e`. The `try` block converts a success with `astimezone(pytz.utc)` and the
`except Exception` handler stores the error sentinel. -/
def decodeExpiry (parse : String → Except String Int) (localOffset : Int)
    (certData : String) : ExpiryField :=
  match parse certData with
  | Except.ok n => ExpiryField.isoStr (naiveAstimezoneUtc localOffset n)
  | Except.error e => ExpiryField.errStr (errorText e)

/-- An SSL certificate resource as returned by
`compute.sslCertificates().get(...)` (line 71): `certType` is
`cert.get("type")` (`"MANAGED"` or `"SELF_MANAGED"`, possibly absent) and
`certificate` is `cert.get("certificate")`, the PEM body (possibly
absent). -/
structure CertResource where
  certType : Option String
  certificate : Option String
deriving DecidableEq

/-- One entry of `proxies["items"]` as the loop reads it: `proxy["name"]`
and `proxy.get("sslCertificates", [])`, the certificate URLs. -/
structure Proxy where
  name : String
  sslCertificates : List String
deriving DecidableEq

/-- Python truthiness of `cert_data` at line 79: `None` and the empty
string are falsy, every other string is truthy. -/
def truthyStr : Option String → Bool
  | Option.none => false
  | Option.some s => !(s == "")

/-- Line 70: `cert_url.split("/")[-1]`, the suffix of the URL after its
last `/` (the whole string when it has no `/`). -/
def lastComponent (s : String) : String :=
  String.mk ((s.data.reverse.takeWhile (fun c => !(c == '/'))).reverse)

/-- One element of the `ssl_infos` result list (lines 89-94). -/
structure SslInfo where
  proxy_name : String
  cert_name : String
  is_managed : Bool
  expiry_date : ExpiryField
deriving DecidableEq

/-- Lines 69-94, the body of the inner loop for one `cert_url`: fetch the
resource (`env` abstracts the cloud `get` call, keyed by the certificate
name), compute `is_managed = (cert_type == "MANAGED")`, start
`expiry_date = None`, and run the decode step only under the guard
`not is_managed and cert_data`. -/
def processCert (parse : String → Except String Int) (localOffset : Int)
    (env : String → CertResource) (proxy_name cert_url : String) : SslInfo :=
  let cert_name := lastComponent cert_url
  let cert := env cert_name
  let cert_data := cert.certificate
  let is_managed := cert.certType == some "MANAGED"
  let expiry_date :=
    if !is_managed && truthyStr cert_data then
      decodeExpiry parse localOffset (cert_data.getD "")
    else ExpiryField.none
  { proxy_name := proxy_name, cert_name := cert_name,
    is_managed := is_managed, expiry_date := expiry_date }

/-- Line 79 guard, instrumented: `x509.load_pem_x509_certificate` is
reached for a certificate URL exactly when `not is_managed and cert_data`
holds for its resource. -/
def decodeCalled (env : String → CertResource) (cert_url : String) : Bool :=
  !((env (lastComponent cert_url)).certType == some "MANAGED")
    && truthyStr (env (lastComponent cert_url)).certificate

/-- Lines 64-96: the double loop of `fetch_target_https_proxies`, appending
one record per certificate URL of every listed proxy. -/
def fetch_target_https_proxies (parse : String → Except String Int)
    (localOffset : Int) (env : String → CertResource)
    (proxies : List Proxy) : List SslInfo :=
  proxies.flatMap (fun p =>
    p.sslCertificates.map (processCert parse localOffset env p.name))

/-- Lines 109-131: the report loop prints exactly one line per element of
`cert_info`, carrying the status computed for that record. -/
def report (now : Int) (infos : List SslInfo) : List (Status × SslInfo) :=
  infos.map (fun item => (classify item.is_managed item.expiry_date now, item))

/-- A record carries a successfully decoded timestamp. -/
def hasTimestamp (r : SslInfo) : Bool :=
  match r.expiry_date with
  | ExpiryField.isoStr _ => true
  | _ => false

/-- A record carries a decode-error sentinel. -/
def hasDecodeError (r : SslInfo) : Bool :=
  match r.expiry_date with
  | ExpiryField.errStr _ => true
  | _ => false

/-! Concrete fixtures used by counterexamples and witnesses. -/

/-- A parse function that always fails, as when the PEM body is malformed. -/
def failParse : String → Except String Int := fun _ => Except.error "boom"

/-- A parse function that always succeeds with naive wall-clock second `n`. -/
def okParse (n : Int) : String → Except String Int := fun _ => Except.ok n

/-- A cloud environment whose every certificate resource is self-managed
with a non-empty PEM body. -/
def selfManagedEnv : String → CertResource :=
  fun _ => CertResource.mk (some "SELF_MANAGED") (some "PEM")

/-- A cloud environment whose every certificate resource is managed. -/
def managedEnv : String → CertResource :=
  fun _ => CertResource.mk (some "MANAGED") Option.none

/-- A cloud environment whose every certificate resource is self-managed
with an absent PEM body. -/
def emptyBodyEnv : String → CertResource :=
  fun _ => CertResource.mk (some "SELF_MANAGED") Option.none

/-- Helper: on a self-managed record with a decoded timestamp the report
loop reduces to the `days_left` threshold cascade. -/
theorem classify_selfManaged_iso (t now : Int) :
    classify false (ExpiryField.isoStr t) now =
      (if timedeltaDays (t - now) ≤ 10 then Status.expiringSoon
       else if timedeltaDays (t - now) ≤ 30 then Status.warning
       else Status.ok) := rfl

/-- C1: for every self-managed record with a successfully decoded
notValidAfter timestamp and any now, the report loop classifies by
`days_left = (dt - now).days`: at most 10 days left (every negative value
included) gives ExpiringSoon, strictly more than 10 and at most 30 gives
Warning, strictly more than 30 gives Ok; in particular 10 gives
ExpiringSoon, 11 and 30 give Warning, 31 gives Ok. -/
theorem C1_selfManaged_daysLeft_thresholds (t now : Int) :
    (timedeltaDays (t - now) ≤ 10 →
      tierOf (classify false (ExpiryField.isoStr t) now) = StatusTier.ExpiringSoon)
    ∧ (10 < timedeltaDays (t - now) → timedeltaDays (t - now) ≤ 30 →
      tierOf (classify false (ExpiryField.isoStr t) now) = StatusTier.Warning)
    ∧ (30 < timedeltaDays (t - now) →
      tierOf (classify false (ExpiryField.isoStr t) now) = StatusTier.Ok) := by
  rw [classify_selfManaged_iso]
  refine ⟨fun h => ?_, fun h1 h2 => ?_, fun h => ?_⟩
  · rw [if_pos h]; rfl
  · rw [if_neg (by omega), if_pos h2]; rfl
  · rw [if_neg (by omega), if_neg (by omega)]; rfl

/-- Witness for C1 at `now = 0`: `days_left` equal to 10, 11, 30, 31 and
to the negative value -1 (an expired certificate). -/
theorem C1_selfManaged_daysLeft_thresholds_witness :
    tierOf (classify false (ExpiryField.isoStr 864000) 0) = StatusTier.ExpiringSoon
    ∧ tierOf (classify false (ExpiryField.isoStr 950400) 0) = StatusTier.Warning
    ∧ tierOf (classify false (ExpiryField.isoStr 2592000) 0) = StatusTier.Warning
    ∧ tierOf (classify false (ExpiryField.isoStr 2678400) 0) = StatusTier.Ok
    ∧ tierOf (classify false (ExpiryField.isoStr (-86400)) 0) = StatusTier.ExpiringSoon :=
  ⟨(C1_selfManaged_daysLeft_thresholds 864000 0).1 (by decide),
   (C1_selfManaged_daysLeft_thresholds 950400 0).2.1 (by decide) (by decide),
   (C1_selfManaged_daysLeft_thresholds 2592000 0).2.1 (by decide) (by decide),
   (C1_selfManaged_daysLeft_thresholds 2678400 0).2.2 (by decide),
   (C1_selfManaged_daysLeft_thresholds (-86400) 0).1 (by decide)⟩

/-- C2 counterexample: a managed input carrying the decode-error sentinel
is classified as the error status, not Ok — the report loop tests the
error string before the managed flag. -/
theorem C2_counterexample :
    classify true (ExpiryField.errStr (errorText "boom")) 0 = Status.errorTier
    ∧ Status.errorTier ≠ Status.ok := by
  exact ⟨rfl, by decide⟩

/-- C2 (amended): for every input with the managed flag set whose expiry
field is not an error string (absent or any timestamp string), the report
loop returns Ok; when the expiry field is an error string, that check
takes precedence even over the managed flag and the result surfaces as the
ParseError tier. -/
theorem C2_managed_ok_unless_error (expiry : ExpiryField) (now : Int) :
    (containsErrorStr expiry = false → classify true expiry now = Status.ok)
    ∧ (containsErrorStr expiry = true →
      tierOf (classify true expiry now) = StatusTier.ParseError) := by
  cases expiry <;> simp [classify, containsErrorStr, tierOf]

/-- Witness for C2 (amended): an absent expiry field gives Ok, an error
string gives the ParseError tier. -/
theorem C2_managed_ok_unless_error_witness :
    classify true ExpiryField.none 0 = Status.ok
    ∧ tierOf (classify true (ExpiryField.errStr (errorText "x")) 0) = StatusTier.ParseError :=
  ⟨(C2_managed_ok_unless_error ExpiryField.none 0).1 rfl,
   (C2_managed_ok_unless_error (ExpiryField.errStr (errorText "x")) 0).2 rfl⟩

/-- C3: when a self-managed resource has a truthy PEM body whose parse
raises, the scan stores the decode failure as the error sentinel on the
record (nothing is raised to a caller), and the report loop classifies
that record as the ParseError tier. -/
theorem C3_decodeError_surfaces_as_ParseError
    (parse : String → Except String Int) (off : Int)
    (env : String → CertResource) (pn url e : String) (now : Int)
    (hm : ((env (lastComponent url)).certType == some "MANAGED") = false)
    (hd : truthyStr (env (lastComponent url)).certificate = true)
    (hp : parse ((env (lastComponent url)).certificate.getD "") = Except.error e) :
    (processCert parse off env pn url).is_managed = false
    ∧ (processCert parse off env pn url).expiry_date = ExpiryField.errStr (errorText e)
    ∧ tierOf (classify (processCert parse off env pn url).is_managed
        (processCert parse off env pn url).expiry_date now) = StatusTier.ParseError := by
  simp only [processCert, hm, hd, Bool.not_false, Bool.and_self, if_pos,
    decodeExpiry, hp]
  simp [classify, containsErrorStr, tierOf]

/-- Witness for C3: a self-managed resource with body `"PEM"` whose parse
fails with message `"boom"`. -/
theorem C3_decodeError_surfaces_as_ParseError_witness :
    (processCert failParse 0 selfManagedEnv "p" "u").is_managed = false
    ∧ (processCert failParse 0 selfManagedEnv "p" "u").expiry_date
      = ExpiryField.errStr (errorText "boom")
    ∧ tierOf (classify (processCert failParse 0 selfManagedEnv "p" "u").is_managed
        (processCert failParse 0 selfManagedEnv "p" "u").expiry_date 0)
      = StatusTier.ParseError :=
  C3_decodeError_surfaces_as_ParseError failParse 0 selfManagedEnv "p" "u" "boom" 0
    (by decide) (by decide) rfl

/-- C4 (code bug witness evaluation): the decode step is not independent of
the ambient local timezone. `not_valid_after` is a naive datetime and
`astimezone(pytz.utc)` presumes a naive datetime is local time, so with the
same parsed certificate (naive not-valid-after second 1000000) the decode
result is 992800 under a +02:00 local offset but 1000000 under a UTC local
offset — the recorded timestamp shifts by the ambient offset instead of
being exactly the certificate field. -/
theorem C4_decode_depends_on_local_timezone :
    decodeExpiry (okParse 1000000) 7200 "PEM" = ExpiryField.isoStr 992800
    ∧ decodeExpiry (okParse 1000000) 0 "PEM" = ExpiryField.isoStr 1000000
    ∧ (992800 : Int) ≠ 1000000 := by
  refine ⟨rfl, rfl, by decide⟩

/-- C5: the `days_left` the report loop computes, `(dt - now).days`, equals
the floor of the real-valued day difference — partial days truncate toward
the smaller number of whole days, negative differences included. -/
theorem C5_daysLeft_is_floor_of_real_day_difference (a b : Int) :
    timedeltaDays (a - b) = ⌊((a : ℚ) - (b : ℚ)) / (86400 : ℚ)⌋ := by
  have h := Rat.floor_intCast_div_natCast (a - b) 86400
  norm_num at h
  unfold timedeltaDays
  rw [Int.fdiv_eq_ediv _ (by norm_num)]
  rw [← h]

/-- C6: whatever the parser does on a byte sequence (empty, truncated,
non-certificate — any outcome at all), the decode step returns either the
converted timestamp or the error sentinel carrying the human-readable
failure description; the exception is captured, never propagated, and no
default timestamp is substituted on failure. -/
theorem C6_decode_total_no_default (parse : String → Except String Int)
    (off : Int) (d : String) :
    (∃ n, parse d = Except.ok n
      ∧ decodeExpiry parse off d = ExpiryField.isoStr (naiveAstimezoneUtc off n))
    ∨ (∃ e, parse d = Except.error e
      ∧ decodeExpiry parse off d = ExpiryField.errStr (errorText e)) := by
  cases hp : parse d with
  | ok n => exact Or.inl ⟨n, rfl, by simp [decodeExpiry, hp]⟩
  | error e => exact Or.inr ⟨e, rfl, by simp [decodeExpiry, hp]⟩

/-- C7: the report prints exactly one classified line per certificate URL
of every listed proxy — the output list is, position by position, the
per-URL classified record, and its length is the total number of
certificate references discovered. -/
theorem C7_one_record_per_certificate (parse : String → Except String Int)
    (off : Int) (env : String → CertResource) (proxies : List Proxy) (now : Int) :
    report now (fetch_target_https_proxies parse off env proxies)
      = proxies.flatMap (fun p => p.sslCertificates.map (fun url =>
          (classify (processCert parse off env p.name url).is_managed
            (processCert parse off env p.name url).expiry_date now,
          processCert parse off env p.name url)))
    ∧ (report now (fetch_target_https_proxies parse off env proxies)).length
      = (proxies.map (fun p => p.sslCertificates.length)).sum := by
  constructor
  · simp [report, fetch_target_https_proxies, List.map_flatMap, List.map_map,
      Function.comp_def]
  · simp [report, fetch_target_https_proxies, Function.comp_def, List.length_map]

/-- C8 counterexample: the scan of one proxy with one self-managed
certificate whose PEM body is absent constructs a record that is
self-managed yet carries neither a timestamp nor a decode error — the
claimed invariant (exactly one of the two for every self-managed record)
fails. -/
theorem C8_counterexample :
    ¬ (∀ r ∈ fetch_target_https_proxies failParse 0 emptyBodyEnv
          [Proxy.mk "p" ["u"]],
        r.is_managed = false → (hasTimestamp r || hasDecodeError r) = true) := by
  decide

/-- C8 (amended): every record the scan constructs satisfies: a managed
record carries neither a timestamp nor a decode error; no record ever
carries both; a self-managed record carries exactly one of the two when
the fetched PEM body is present and non-empty, and neither when the body
is absent or empty. -/
theorem C8_record_invariant (parse : String → Except String Int) (off : Int)
    (env : String → CertResource) (pn url : String) :
    ((processCert parse off env pn url).is_managed = true →
      (processCert parse off env pn url).expiry_date = ExpiryField.none)
    ∧ (hasTimestamp (processCert parse off env pn url)
        && hasDecodeError (processCert parse off env pn url)) = false
    ∧ ((processCert parse off env pn url).is_managed = false →
        truthyStr (env (lastComponent url)).certificate = true →
        (hasTimestamp (processCert parse off env pn url)
          || hasDecodeError (processCert parse off env pn url)) = true)
    ∧ ((processCert parse off env pn url).is_managed = false →
        truthyStr (env (lastComponent url)).certificate = false →
        (processCert parse off env pn url).expiry_date = ExpiryField.none) := by
  by_cases hm : ((env (lastComponent url)).certType == some "MANAGED") = true
  · simp [processCert, hm, hasTimestamp, hasDecodeError]
  · rw [Bool.not_eq_true] at hm
    by_cases hd : truthyStr (env (lastComponent url)).certificate = true
    · cases hp : parse ((env (lastComponent url)).certificate.getD "") with
      | ok n =>
        simp [processCert, hm, hd, decodeExpiry, hp, hasTimestamp, hasDecodeError]
      | error e =>
        simp [processCert, hm, hd, decodeExpiry, hp, hasTimestamp, hasDecodeError]
    · rw [Bool.not_eq_true] at hd
      simp [processCert, hm, hd, hasTimestamp, hasDecodeError]

/-- Witness for C8 (amended): a managed resource gives neither field, a
self-managed resource with a body gives exactly one, a self-managed
resource without a body gives neither. -/
theorem C8_record_invariant_witness :
    (processCert failParse 0 managedEnv "p" "u").expiry_date = ExpiryField.none
    ∧ (hasTimestamp (processCert failParse 0 selfManagedEnv "p" "u")
        || hasDecodeError (processCert failParse 0 selfManagedEnv "p" "u")) = true
    ∧ (processCert failParse 0 emptyBodyEnv "p" "u").expiry_date = ExpiryField.none :=
  ⟨(C8_record_invariant failParse 0 managedEnv "p" "u").1 (by decide),
   (C8_record_invariant failParse 0 selfManagedEnv "p" "u").2.2.1 (by decide) (by decide),
   (C8_record_invariant failParse 0 emptyBodyEnv "p" "u").2.2.2 (by decide) (by decide)⟩

/-- C9: the guard at line 79 never reaches the certificate parser for a
managed certificate, and the record built for a managed certificate does
not depend on the parser or on the ambient timezone offset at all. -/
theorem C9_managed_body_never_decoded
    (parse1 parse2 : String → Except String Int) (off1 off2 : Int)
    (env : String → CertResource) (pn url : String)
    (hm : ((env (lastComponent url)).certType == some "MANAGED") = true) :
    decodeCalled env url = false
    ∧ processCert parse1 off1 env pn url = processCert parse2 off2 env pn url := by
  constructor
  · simp [decodeCalled, hm]
  · simp [processCert, hm]

/-- Witness for C9: a managed resource. -/
theorem C9_managed_body_never_decoded_witness :
    decodeCalled managedEnv "u" = false
    ∧ processCert failParse 0 managedEnv "p" "u"
      = processCert (okParse 5) 7200 managedEnv "p" "u" :=
  C9_managed_body_never_decoded failParse (okParse 5) 0 7200 managedEnv "p" "u"
    (by decide)

/-- C10: for a self-managed certificate whose fetched PEM body is absent or
empty, the guard skips the decoder, the record carries neither a timestamp
nor an error sentinel (its expiry field is None), and the report loop —
whose `fromisoformat` call raises on None and is caught by the bare
`except` — classifies the record as the Parse Error status, which surfaces
as the ParseError tier, not as Ok. -/
theorem C10_empty_body_parse_error (parse : String → Except String Int)
    (off : Int) (env : String → CertResource) (pn url : String) (now : Int)
    (hm : ((env (lastComponent url)).certType == some "MANAGED") = false)
    (hd : truthyStr (env (lastComponent url)).certificate = false) :
    decodeCalled env url = false
    ∧ (processCert parse off env pn url).expiry_date = ExpiryField.none
    ∧ classify (processCert parse off env pn url).is_managed
        (processCert parse off env pn url).expiry_date now = Status.parseErrTier
    ∧ tierOf Status.parseErrTier = StatusTier.ParseError
    ∧ Status.parseErrTier ≠ Status.ok := by
  refine ⟨by simp [decodeCalled, hm, hd], by simp [processCert, hm, hd], ?_, rfl, by decide⟩
  simp [processCert, hm, hd, classify, containsErrorStr, fromIso]

/-- Witness for C10: a self-managed resource with an absent body. -/
theorem C10_empty_body_parse_error_witness :
    decodeCalled emptyBodyEnv "u" = false
    ∧ (processCert failParse 0 emptyBodyEnv "p" "u").expiry_date = ExpiryField.none
    ∧ classify (processCert failParse 0 emptyBodyEnv "p" "u").is_managed
        (processCert failParse 0 emptyBodyEnv "p" "u").expiry_date 0
      = Status.parseErrTier
    ∧ tierOf Status.parseErrTier = StatusTier.ParseError
    ∧ Status.parseErrTier ≠ Status.ok :=
  C10_empty_body_parse_error failParse 0 emptyBodyEnv "p" "u" 0 (by decide) (by decide)
